import Mathlib

/-!
Verification development for the Online_guru retrieval-based QA repository.

The Python sources (`ingest.py`, `rag_engine.py`, `language_utils.py`,
`config.py`) are shallowly embedded below.  Strings are modelled as
`List Char`; Python `str.lower` is modelled per-character with
`Char.toLower` (the keyword sets and phrases involved are ASCII), and
Python `str.strip` is modelled with ASCII whitespace.  Stateful code
(the ingestion pipeline writing index artifacts) is modelled by explicit
state passing; fallible external calls (the `langdetect` classifier,
FAISS similarity search, LLM invocation) are modelled as oracle
arguments of `Except`/`Option` type so that the error-handling branches
of the repository code can be stated and proved.
-/

/-- Sum of the lengths of a list of strings (Python `total` counter in
`_merge_splits`, with a zero-length separator). -/
def sumLen (l : List (List Char)) : Nat :=
  (l.map List.length).sum

/-- Python `str.strip()` on ASCII whitespace: drop whitespace from both ends. -/
def trimList (l : List Char) : List Char :=
  ((l.dropWhile Char.isWhitespace).reverse.dropWhile Char.isWhitespace).reverse

/-- Python `needle in haystack`: substring containment on character lists. -/
def containsSeq (needle : List Char) : List Char → Bool
  | [] => needle.isEmpty
  | c :: rest => needle.isPrefixOf (c :: rest) || containsSeq needle rest

/-- Python `str.lower()` restricted to ASCII case mapping, applied per character. -/
def toLowerList (l : List Char) : List Char :=
  l.map Char.toLower

/-- Helper for `replaceAll`: fuelled scan; fuel at least the length of the
subject suffices when `old` is nonempty. -/
def replaceAllAux (old new : List Char) : Nat → List Char → List Char
  | _, [] => []
  | 0, s => s
  | Nat.succ fuel, c :: rest =>
    if old.isPrefixOf (c :: rest) then
      new ++ replaceAllAux old new fuel (List.drop (old.length - 1) rest)
    else
      c :: replaceAllAux old new fuel rest

/-- Python `s.replace(old, new)` for nonempty `old`: replace every
left-to-right non-overlapping occurrence. -/
def pyReplace (s old new : List Char) : List Char :=
  replaceAllAux old new s.length s

/-- Helper for `splitOnList`: fuelled scan; fuel at least the length of the
subject suffices when `sep` is nonempty. -/
def splitOnAux (sep : List Char) : Nat → List Char → List Char → List (List Char)
  | _, [], acc => [acc.reverse]
  | 0, l, acc => [acc.reverse ++ l]
  | Nat.succ fuel, c :: rest, acc =>
    if sep.isPrefixOf (c :: rest) then
      acc.reverse :: splitOnAux sep fuel (List.drop (sep.length - 1) rest) []
    else
      splitOnAux sep fuel rest (c :: acc)

/-- Python `re.split(re.escape(sep), text)` for a nonempty literal `sep`:
split at every left-to-right non-overlapping occurrence, keeping empty
pieces. -/
def splitOnList (sep l : List Char) : List (List Char) :=
  if sep.isEmpty then [l] else splitOnAux sep l.length l []

namespace RecursiveCharacterTextSplitter

/-!
Embedding of LangChain's `RecursiveCharacterTextSplitter` as instantiated
by `DataIngestionPipeline.__init__` (ingest.py lines 27-32): separators
`["\n\n", "\n", ". ", " ", ""]`, `length_function = len`, default
`keep_separator = True` and `strip_whitespace = True`.
-/

/-- The separator list passed to the splitter in `ingest.py`. -/
def ingestSeparators : List (List Char) :=
  [("\n\n").data, ("\n").data, (". ").data, (" ").data, []]

/-- The separator-selection loop at the top of `_split_text`: return the
first separator that is empty or occurs in the text (with the remaining
separators), defaulting to the last separator. -/
def chooseSep : List (List Char) → List Char → List Char × List (List Char)
  | [], _ => ([], [])
  | s :: rest, text =>
    if s.isEmpty then ([], [])
    else if containsSeq s text then (s, rest)
    else
      match rest with
      | [] => (s, [])
      | _ :: _ => chooseSep rest text

/-- `_split_text_with_regex` with `keep_separator = True`: each separator
occurrence is attached to the start of the following piece; empty pieces
are dropped.  The empty separator splits into single characters. -/
def splitWithSep (sep text : List Char) : List (List Char) :=
  (if sep.isEmpty then
    text.map (fun c => [c])
  else
    match splitOnList sep text with
    | [] => []
    | p :: ps => p :: ps.map (fun q => sep ++ q)).filter (fun s => !s.isEmpty)

/-- `_join_docs` with separator `""` and `strip_whitespace = True`. -/
def joinDocs (docs : List (List Char)) : Option (List Char) :=
  let text := trimList docs.flatten
  if text.isEmpty then none else some text

/-- The pop loop of `_merge_splits` (with a zero-length separator): drop
leading pieces while the running total exceeds the overlap, or while the
next piece would not fit and the buffer is nonempty. -/
def popWhile (cs co lenD : Nat) : List (List Char) → List (List Char)
  | [] => []
  | c :: rest =>
    if sumLen (c :: rest) > co ∨ (sumLen (c :: rest) + lenD > cs ∧ 0 < sumLen (c :: rest)) then
      popWhile cs co lenD rest
    else
      c :: rest

/-- The main loop of `_merge_splits` (separator `""`, as `keep_separator`
is true): accumulate pieces; when the next piece would overflow
`chunk_size`, emit the joined buffer and pop down to the overlap. -/
def mergeLoop (cs co : Nat) : List (List Char) → List (List Char) → List (List Char)
  | current, [] =>
    match joinDocs current with
    | none => []
    | some doc => [doc]
  | current, d :: rest =>
    if sumLen current + d.length > cs then
      if current.isEmpty then
        mergeLoop cs co (current ++ [d]) rest
      else
        (match joinDocs current with
         | none => []
         | some doc => [doc])
        ++ mergeLoop cs co (popWhile cs co d.length current ++ [d]) rest
    else
      mergeLoop cs co (current ++ [d]) rest

/-- `_merge_splits` with separator `""`. -/
def mergeSplits (cs co : Nat) (splits : List (List Char)) : List (List Char) :=
  mergeLoop cs co [] splits

/-- The two mutually recursive phases of `_split_text`, defunctionalized:
`text` is the entry point for a text and a separator list, `proc` is the
loop over the splits with the accumulated run of good (short) splits. -/
inductive SplitCall : Type
  | text (seps : List (List Char)) (t : List Char)
  | proc (newSeps : List (List Char)) (good : List (List Char)) (splits : List (List Char))

/-- Fuelled interpreter for `_split_text`.  One unit of fuel is spent per
step; `(seps.length + 1) * (t.length + 2)` units are always sufficient. -/
def splitRun (cs co : Nat) : Nat → SplitCall → List (List Char)
  | 0, _ => []
  | Nat.succ fuel, .text seps t =>
    splitRun cs co fuel (.proc (chooseSep seps t).2 [] (splitWithSep (chooseSep seps t).1 t))
  | Nat.succ _, .proc _ good [] =>
    if good.isEmpty then [] else mergeSplits cs co good
  | Nat.succ fuel, .proc ns good (s :: rest) =>
    if s.length < cs then
      splitRun cs co fuel (.proc ns (good ++ [s]) rest)
    else
      (if good.isEmpty then [] else mergeSplits cs co good)
      ++ (if ns.isEmpty then [s] else splitRun cs co fuel (.text ns s))
      ++ splitRun cs co fuel (.proc ns [] rest)

/-- `split_text` of the splitter as configured in `ingest.py`. -/
def split_text (cs co : Nat) (t : List Char) : List (List Char) :=
  splitRun cs co ((ingestSeparators.length + 1) * (t.length + 2)) (.text ingestSeparators t)

end RecursiveCharacterTextSplitter

/-- A loaded document or chunk: `page_content` plus its `source` metadata
(langchain `Document` as used by `ingest.py` and `rag_engine.py`). -/
structure Document where
  source : List Char
  page_content : List Char
deriving DecidableEq

namespace settings

/-! Defaults from `config.py` (`Settings.__init__`), with no overriding
environment variables. -/

def chunk_size : Nat := 500

def chunk_overlap : Nat := 50

def top_k_results : Nat := 4

def default_language : List Char := ("en").data

def supported_languages : List (List Char) :=
  [("en").data, ("hi").data, ("te").data, ("kn").data]

def data_folder : List Char := ("./data").data

end settings

namespace DataIngestionPipeline

/-- `DataIngestionPipeline.split_documents` (ingest.py lines 149-166):
split each document with the configured `RecursiveCharacterTextSplitter`,
each chunk keeping its document's source metadata. -/
def split_documents (cs co : Nat) (documents : List Document) : List Document :=
  if documents.isEmpty then []
  else
    documents.flatMap fun d =>
      (RecursiveCharacterTextSplitter.split_text cs co d.page_content).map
        fun t => { source := d.source, page_content := t }

/-- The persisted FAISS store, abstracted to the chunk list it was built
from (`index.faiss` plus the parallel metadata in `index.pkl`). -/
structure IngestStore where
  docs : List Document
deriving DecidableEq

/-- The filesystem state the ingestion pipeline interacts with: the
artifacts at `vector_db_path` (`none` when absent or unloadable), whether
the data folder exists, and the documents loadable from it. -/
structure IngestState where
  index : Option IngestStore
  dataDirExists : Bool
  dataFiles : List Document
deriving DecidableEq

/-- `load_vector_store` (ingest.py lines 217-244): read-only; yields the
persisted store, or `None` when the path is missing or loading fails. -/
def load_vector_store (st : IngestState) : Option IngestStore :=
  st.index

/-- `load_all_documents` (ingest.py lines 117-147): when the data folder is
missing it is created and no documents are returned; otherwise the folder's
documents are loaded.  The index artifacts are never touched. -/
def load_all_documents (st : IngestState) : List Document × IngestState :=
  if st.dataDirExists then (st.dataFiles, st)
  else ([], { st with dataDirExists := true })

/-- Message of the `ValueError` raised by `build_vector_db` (ingest.py
lines 273-277) with the default data folder. -/
def noDocumentsFoundMsg : List Char :=
  ("No documents found in ./data. Please add PDF or TXT files to the data folder.").data

/-- Message of the `ValueError` raised by `create_vector_store` (ingest.py
lines 183-184). -/
def noDocumentsProvidedMsg : List Char :=
  ("No documents provided to create vector store").data

/-- `create_vector_store` (ingest.py lines 168-198): reject an empty chunk
list before building; otherwise build the store and persist it at
`vector_db_path`. -/
def create_vector_store (chunks : List Document) (st : IngestState) :
    Except (List Char) IngestStore × IngestState :=
  if chunks.isEmpty then (.error noDocumentsProvidedMsg, st)
  else
    let store : IngestStore := { docs := chunks }
    (.ok store, { st with index := some store })

/-- The rebuild tail of `build_vector_db` (ingest.py lines 268-286): load
all documents, fail on an empty corpus, else chunk and build the store. -/
def build_vector_db_rebuild (cs co : Nat) (st : IngestState) :
    Except (List Char) IngestStore × IngestState :=
  let loaded := load_all_documents st
  if loaded.1.isEmpty then (.error noDocumentsFoundMsg, loaded.2)
  else create_vector_store (split_documents cs co loaded.1) loaded.2

/-- `build_vector_db` (ingest.py lines 246-286): with `force_rebuild`
false and a loadable index present, return it untouched; otherwise run the
full rebuild.  The `Except` value models the raised `ValueError`; the
returned state is the filesystem after the call. -/
def build_vector_db (cs co : Nat) (st : IngestState) (force_rebuild : Bool) :
    Except (List Char) IngestStore × IngestState :=
  if force_rebuild = false then
    match load_vector_store st with
    | some store => (.ok store, st)
    | none => build_vector_db_rebuild cs co st
  else build_vector_db_rebuild cs co st

end DataIngestionPipeline

/-- ASCII apostrophe, written by code point to keep source strings exact. -/
def apos : Char := Char.ofNat 39

namespace SafetyFilter

/-! `SafetyFilter` (rag_engine.py lines 38-130). -/

def MEDICAL_KEYWORDS : List (List Char) :=
  [("disease").data, ("cure").data, ("medicine").data, ("treatment").data,
   ("diagnosis").data, ("symptom").data, ("cancer").data, ("diabetes").data,
   ("covid").data, ("illness").data, ("drug").data, ("prescription").data,
   ("surgery").data, ("therapy").data, ("medical").data,
   ("health problem").data, ("sick").data]

def LEGAL_KEYWORDS : List (List Char) :=
  [("lawsuit").data, ("legal advice").data, ("court").data, ("lawyer").data,
   ("attorney").data, ("sue").data, ("contract").data, ("divorce").data,
   ("custody").data, ("will").data, ("testament").data, ("rights").data,
   ("law").data, ("illegal").data, ("criminal").data]

def PREDICTIVE_KEYWORDS : List (List Char) :=
  [("predict").data, ("future").data, ("will happen").data, ("fortune").data,
   ("lottery").data, ("winning").data, ("stock market").data,
   ("investment").data, ("when will").data, ("prediction").data,
   ("foretell").data]

def DIVINE_CLAIMS : List (List Char) :=
  [("i am god").data, ("i am divine").data, ("i am sai baba").data,
   ("worship me").data, ("i am omnipotent").data, ("i am all-knowing").data]

def MEDICAL_WARNING : List Char :=
  ("I cannot provide medical advice. For health concerns, please consult qualified healthcare professionals. I can only share general spiritual wisdom from Sai Baba").data
  ++ [apos] ++ ("s teachings.").data

def LEGAL_WARNING : List Char :=
  ("I cannot provide legal advice. For legal matters, please consult qualified legal professionals. I can only share spiritual guidance from Sai Baba").data
  ++ [apos] ++ ("s teachings.").data

def PREDICTIVE_WARNING : List Char :=
  ("I cannot predict the future or provide fortune-telling. I can only share timeless spiritual wisdom from Sai Baba").data
  ++ [apos] ++ ("s teachings to help guide your present journey.").data

/-- `SafetyFilter.is_prohibited_topic` (rag_engine.py lines 64-101):
lowercase the question, test the medical, legal and predictive keyword
sets in that order by substring containment, returning the first matching
category's fixed warning, else `None`. -/
def is_prohibited_topic (question : List Char) : Option (List Char) :=
  let question_lower := toLowerList question
  if MEDICAL_KEYWORDS.any (fun kw => containsSeq kw question_lower) then
    some MEDICAL_WARNING
  else if LEGAL_KEYWORDS.any (fun kw => containsSeq kw question_lower) then
    some LEGAL_WARNING
  else if PREDICTIVE_KEYWORDS.any (fun kw => containsSeq kw question_lower) then
    some PREDICTIVE_WARNING
  else
    none

def saiBabaTeaches : List Char := ("Sai Baba teaches").data

def iDontKnow : List Char := ("i don").data ++ [apos] ++ ("t know").data

def DISCLAIMER : List Char :=
  ("\n\nNote: This guidance is based on the available teachings. For deeper spiritual understanding, consider studying Sai Baba").data
  ++ [apos] ++ ("s original works and seeking guidance from qualified spiritual teachers.").data

/-- `SafetyFilter.sanitize_response` (rag_engine.py lines 103-130): for
each divine-claim phrase detected in the lowercased response, run
`str.replace` on the current (original-case) response; then append the
disclaimer when the resulting response is shorter than 50 characters or
the lowercased original contains "i don't know". -/
def sanitize_response (response : List Char) : List Char :=
  let response_lower := toLowerList response
  let replaced := DIVINE_CLAIMS.foldl
    (fun r claim => if containsSeq claim response_lower then pyReplace r claim saiBabaTeaches else r)
    response
  if replaced.length < 50 || containsSeq iDontKnow response_lower then
    replaced ++ DISCLAIMER
  else
    replaced

end SafetyFilter

/-- `LANGDETECT_TO_ISO` (language_utils.py lines 22-27). -/
def LANGDETECT_TO_ISO : List (List Char × List Char) :=
  [(("en").data, ("en").data), (("hi").data, ("hi").data),
   (("te").data, ("te").data), (("kn").data, ("kn").data)]

namespace LanguageDetector

/-- `LanguageDetector.detect_language` (language_utils.py lines 38-74).
The `langdetect.detect` call is modelled by the `oracle` argument: `.ok`
is the code it returns, `.error` a raised exception (both
`LangDetectException` and any other exception take the same fallback). -/
def detect_language (default_language : List Char)
    (oracle : Except (List Char) (List Char)) (text : List Char) : List Char :=
  if (trimList text).isEmpty then default_language
  else
    match oracle with
    | .error _ => default_language
    | .ok detected =>
      let iso :=
        match LANGDETECT_TO_ISO.lookup detected with
        | some v => v
        | none => detected
      if iso ∈ settings.supported_languages then iso else default_language

end LanguageDetector

/-- Helper for Python `dict.get(key, default)` over the embedded
language-keyed tables. -/
def lookupD (m : List (List Char × List Char)) (k d : List Char) : List Char :=
  match m.lookup k with
  | some v => v
  | none => d

/-- Python `re.sub(r"\s+", " ", s)`: collapse each maximal whitespace run
to a single space (ASCII whitespace). -/
def collapseWsAux (inWs : Bool) : List Char → List Char
  | [] => []
  | c :: rest =>
    if c.isWhitespace then
      if inWs then collapseWsAux true rest
      else ' ' :: collapseWsAux true rest
    else c :: collapseWsAux false rest

def collapseWs (l : List Char) : List Char :=
  collapseWsAux false l

/-- Length matched at the head by the pattern `\n\s*\n` of
`re.split(r"\n\s*\n", ...)` (greedy `\s*`), if it matches. -/
def paraBreakLen : List Char → Option Nat
  | [] => none
  | c :: rest =>
    if c = '\n' then
      let run := rest.takeWhile Char.isWhitespace
      let upto := run.reverse.dropWhile (fun x => x != '\n')
      if upto.isEmpty then none else some (upto.length + 1)
    else none

/-- Fuelled splitter for `re.split(r"\n\s*\n", s)`; fuel at least the
length of the subject suffices since every break consumes two or more
characters. -/
def splitParasAux : Nat → List Char → List Char → List (List Char)
  | _, acc, [] => [acc.reverse]
  | 0, acc, l => [acc.reverse ++ l]
  | Nat.succ fuel, acc, c :: rest =>
    match paraBreakLen (c :: rest) with
    | some n => acc.reverse :: splitParasAux fuel [] (List.drop n (c :: rest))
    | none => splitParasAux fuel (c :: acc) rest

def splitParas (l : List Char) : List (List Char) :=
  splitParasAux l.length [] l

/-- Python `sep.join(parts)`. -/
def joinSep (sep : List Char) : List (List Char) → List Char
  | [] => []
  | [x] => x
  | x :: y :: rest => x ++ sep ++ joinSep sep (y :: rest)

/-- `format_multilingual_response` (language_utils.py lines 121-141):
strip the answer and, for the Indic languages, apply NFC normalization.
`unicodedata.normalize("NFC", ...)` is an external library function,
passed in abstractly as `nfc`. -/
def format_multilingual_response (nfc : List Char → List Char)
    (answer : List Char) (language : List Char) : List Char :=
  let answer := trimList answer
  if language ∈ [("hi").data, ("te").data, ("kn").data] then nfc answer
  else answer

namespace MultilingualRAGEngine

/-! `MultilingualRAGEngine` (rag_engine.py lines 133-499).  The loaded
FAISS store is abstracted to its `similarity_search` behaviour; the
optional LLM to the outcome of invoking it (`none`: `use_llm` disabled;
`some (.ok a)`: generation succeeded with `a`; `some (.error e)`: both
invocation attempts raised, the second with message `e`). -/

/-- The loaded vector store, abstracted to its query-time behaviour:
`.ok` is the ranked document list, `.error` a raised exception. -/
structure RagStore where
  similarity_search : List Char → Nat → Except (List Char) (List Document)

structure Engine where
  vector_store : Option RagStore
  llm : Option (Except (List Char) (List Char))

/-- `MultilingualRAGEngine.get_relevant_documents` (rag_engine.py lines
351-374): empty list when no vector store is loaded; otherwise
`similarity_search` with `k = settings.top_k_results`, any exception
caught and turned into an empty list. -/
def get_relevant_documents (eng : Engine) (question : List Char) : List Document :=
  match eng.vector_store with
  | none => []
  | some vs =>
    match vs.similarity_search question settings.top_k_results with
    | .ok docs => docs
    | .error _ => []

/-- The language-keyed no-docs dictionary of `_generate_answer_from_docs`
(rag_engine.py lines 289-294), English entry. -/
def noGuidanceEn : List Char :=
  ("This guidance is not available in Sai Baba").data ++ [apos] ++ ("s teachings.").data

def no_guidance_responses : List (List Char × List Char) :=
  [(("en").data, noGuidanceEn),
   (("hi").data, ("यह मार्गदर्शन साईं बाबा की शिक्षाओं में उपलब्ध नहीं है।").data),
   (("te").data, ("ఈ మార్గదర్శకత్వం సాయి బాబా బోధలలో అందుబాటులో లేదు।").data),
   (("kn").data, ("ಈ ಮಾರ್ಗದರ್ಶನವು ಸಾಯಿ ಬಾಬಾ ಅವರ ಬೋಧನೆಗಳಲ್ಲಿ ಲಭ್ಯವಿಲ್ಲ.").data)]

/-- `prefixes` of `_generate_answer_from_docs` (rag_engine.py lines 310-315). -/
def prefixes : List (List Char × List Char) :=
  [(("en").data, ("My child,").data),
   (("hi").data, ("मेरे बच्चे,").data),
   (("te").data, ("నా బిడ్డా,").data),
   (("kn").data, ("ನನ್ನ ಮಕ್ಕಳೆ,").data)]

def closingEn : List Char :=
  (" May you find peace and strength in these teachings.").data

/-- `closings` of `_generate_answer_from_docs` (rag_engine.py lines 327-332). -/
def closings : List (List Char × List Char) :=
  [(("en").data, closingEn),
   (("hi").data, (" इन शिक्षाओं में आपको शांति और शक्ति मिले।").data),
   (("te").data, (" ఈ బోధనలలో మీకో శాంతి మరియు శక్తి లభించాలి.").data),
   (("kn").data, ("ಈ ಬೋಧನೆಗಳಲ್ಲಿ ನಿಮಗೆ ಶಾಂತಿ ಮತ್ತು ಶಕ್ತಿ ದೊರಕಲಿ.").data)]

/-- `_generate_answer_from_docs` (rag_engine.py lines 283-338): RAG-only
answer composed from the top retrieved chunks with a devotional prefix
and, for a single paragraph, a closing line. -/
def generate_answer_from_docs (docs : List Document) (detected_language : List Char) : List Char :=
  if docs.isEmpty then
    lookupD no_guidance_responses detected_language noGuidanceEn
  else
    let texts := (docs.take 3).map fun d => trimList (collapseWs d.page_content)
    let parts := texts.filter fun t => !t.isEmpty
    match parts with
    | [] => []
    | p :: ps =>
      let combined := if ps.isEmpty then p else joinSep (("\n\n").data) ((p :: ps).take 2)
      let pre := lookupD prefixes detected_language (("My child,").data)
      let paragraphs := ((splitParas combined).map trimList).filter fun q => !q.isEmpty
      match paragraphs with
      | [] => pre ++ [' '] ++ combined
      | p0 :: ptail =>
        let first := pre ++ [' '] ++ p0
        let paragraphs2 :=
          if ptail.isEmpty then
            [trimList first ++ lookupD closings detected_language closingEn]
          else first :: ptail
        trimList (collapseWs (joinSep (("\n\n").data) paragraphs2))

/-- English entry of `no_info_responses` in `answer_question`
(rag_engine.py lines 415-420). -/
def noInfoEn : List Char :=
  ("This guidance is not available in Sai Baba").data ++ [apos] ++ ("s teachings.").data

def no_info_responses : List (List Char × List Char) :=
  [(("en").data, noInfoEn),
   (("hi").data, ("यह मार्गदर्शन साईं बाबा की शिक्षाओं में उपलब्ध नहीं है।").data),
   (("te").data, ("ఈ మార్గదర్శకత్వం సాయి బాబా బోధలలో అందుబాటులో లేదు।").data),
   (("kn").data, ("ಈ ಮಾರ್ಗದರ್ಶನವು ಸಾಯಿಬಾಬಾ ಅವರ ಬೋಧನೆಗಳಲ್ಲಿ ಲಭ್ಯವಿಲ್ಲ.").data)]

/-- English entry of `error_messages` in `answer_question` (rag_engine.py
lines 484-489). -/
def apologyEn : List Char :=
  ("I apologize, but I encountered an error while processing your question. Please try rephrasing your question or try again later.").data

def error_messages : List (List Char × List Char) :=
  [(("en").data, apologyEn),
   (("hi").data, ("क्षमा करें, आपके प्रश्न को संसाधित करते समय एक त्रुटि हुई। कृपया अपना प्रश्न दोबारा लिखें या बाद में पुनः प्रयास करें।").data),
   (("te").data, ("క్షమించండి, మీ ప్రశ్నను ప్రాసెస్ చేయడంలో లోపం ఏర్పడింది. దయచేసి మీ ప్రశ్నను తిరిగి వ్రాయండి లేదా తర్వాత మళ్లీ ప్రయత్నించండి।").data),
   (("kn").data, ("ಕ್ಷಮಿಸಿ, ನಿಮ್ಮ ಪ್ರಶ್ನೆಯನ್ನು ಪ್ರಕ್ರಿಯೆಗೊಳಿಸುವಲ್ಲಿ ದೋಷ ಎದುರಾಗಿದೆ. ದಯವಿಟ್ಟು ನಿಮ್ಮ ಪ್ರಶ್ನೆಯನ್ನು ಪುನಃ ಬರೆಯಿರಿ ಅಥವಾ ನಂತರ ಮತ್ತೆ ಪ್ರಯತ್ನಿಸಿ.").data)]

/-- One entry of the returned `sources` list (rag_engine.py lines
461-467): truncated content plus the chunk's metadata. -/
structure SourceInfo where
  content : List Char
  metadata : List Char
deriving DecidableEq

/-- Values of the dictionary returned by `answer_question`. -/
inductive Val : Type
  | str (s : List Char)
  | sources (l : List SourceInfo)
  | bool (b : Bool)
deriving DecidableEq

/-- The value the local variable `detected_language` of `answer_question`
holds after the detection step (rag_engine.py lines 391-392): the caller's
argument when given, else the detector's result. -/
def detectedLang (detOracle : Except (List Char) (List Char))
    (question : List Char) (detected_language : Option (List Char)) : List Char :=
  match detected_language with
  | some l => l
  | none => LanguageDetector.detect_language settings.default_language detOracle question

/-- The `lang` local of the `except` branch of `answer_question`
(rag_engine.py line 491): the detected language unless it is falsy
(empty), in which case `"en"`. -/
def exceptLang (detOracle : Except (List Char) (List Char))
    (question : List Char) (detected_language : Option (List Char)) : List Char :=
  if (detectedLang detOracle question detected_language).isEmpty then ("en").data
  else detectedLang detOracle question detected_language

/-- `MultilingualRAGEngine.answer_question` (rag_engine.py lines 376-499),
returned dictionary modelled as an association list in insertion order.
`detOracle` is the `langdetect` outcome consumed by `detect_language`;
`exc` models an exception raised inside the `try` block after the safety
gate (the region where the retrieval, prompt-formatting and generation
steps run), caught by the top-level `except`; `nfc` is the external NFC
normalizer used by `format_multilingual_response`. -/
def answer_question (nfc : List Char → List Char) (eng : Engine)
    (detOracle : Except (List Char) (List Char)) (exc : Option (List Char))
    (question : List Char) (detected_language : Option (List Char)) :
    List (List Char × Val) :=
  let lang := detectedLang detOracle question detected_language
  match SafetyFilter.is_prohibited_topic question with
  | some safety_warning =>
    [(("answer").data, .str safety_warning),
     (("language").data, .str lang),
     (("sources").data, .sources []),
     (("is_safe").data, .bool false)]
  | none =>
    match exc with
    | some e =>
      let elang := if lang.isEmpty then ("en").data else lang
      [(("answer").data, .str (lookupD error_messages elang apologyEn)),
       (("language").data, .str elang),
       (("sources").data, .sources []),
       (("is_safe").data, .bool true),
       (("error").data, .str e)]
    | none =>
      let source_docs := get_relevant_documents eng question
      let answer0 :=
        if source_docs.isEmpty then lookupD no_info_responses lang noInfoEn
        else
          match eng.llm with
          | none => generate_answer_from_docs source_docs lang
          | some (.ok content) => content
          | some (.error _) => generate_answer_from_docs source_docs lang
      let answer1 := SafetyFilter.sanitize_response answer0
      let answer2 := format_multilingual_response nfc answer1 lang
      let sources := source_docs.map fun d =>
        SourceInfo.mk (d.page_content.take 200 ++ ("...").data) d.source
      let base :=
        [(("answer").data, .str answer2),
         (("language").data, .str lang),
         (("sources").data, .sources sources),
         (("is_safe").data, .bool true)]
      match source_docs, eng.llm with
      | _ :: _, some (.error e) =>
        base ++ [(("error").data, .str ((("LLM generation failed: ").data) ++ e))]
      | _, _ => base

end MultilingualRAGEngine

namespace RecursiveCharacterTextSplitter

/-- Invariant carried through the `splitRun` interpreter: separator lists
always end with the empty separator (true of `ingestSeparators` and all
its suffixes the recursion uses), accumulated good splits are strictly
shorter than `chunk_size`, and with no separators left every pending
split already fits. -/
def CallOK (cs : Nat) : SplitCall → Prop
  | .text seps _ => seps.getLast? = some []
  | .proc ns good splits =>
    (∀ g ∈ good, g.length < cs) ∧
    (ns = [] → ∀ s ∈ splits, s.length ≤ cs) ∧
    (ns ≠ [] → ns.getLast? = some [])

end RecursiveCharacterTextSplitter

namespace RecursiveCharacterTextSplitter

theorem sumLen_append (a b : List (List Char)) : sumLen (a ++ b) = sumLen a + sumLen b := by
  simp [sumLen]

theorem sumLen_cons (c : List Char) (l : List (List Char)) :
    sumLen (c :: l) = c.length + sumLen l := by
  simp [sumLen]

theorem trimList_length_le (l : List Char) : (trimList l).length ≤ l.length := by
  unfold trimList
  rw [List.length_reverse]
  calc ((l.dropWhile Char.isWhitespace).reverse.dropWhile Char.isWhitespace).length
      ≤ (l.dropWhile Char.isWhitespace).reverse.length :=
        (List.dropWhile_sublist _).length_le
    _ = (l.dropWhile Char.isWhitespace).length := List.length_reverse _
    _ ≤ l.length := (List.dropWhile_sublist _).length_le

theorem joinDocs_length (docs : List (List Char)) (t : List Char)
    (h : joinDocs docs = some t) : t.length ≤ sumLen docs := by
  unfold joinDocs at h
  by_cases he : (trimList docs.flatten).isEmpty
  · simp [he] at h
  · simp only [he, if_false, Bool.false_eq_true, if_neg, Option.some.injEq] at h
    subst h
    calc (trimList docs.flatten).length
        ≤ docs.flatten.length := trimList_length_le _
      _ = sumLen docs := by simp [sumLen]

theorem popWhile_spec (cs co dl : Nat) (l : List (List Char)) :
    sumLen (popWhile cs co dl l) ≤ co ∧
      (sumLen (popWhile cs co dl l) + dl ≤ cs ∨ sumLen (popWhile cs co dl l) = 0) := by
  induction l with
  | nil => simp [popWhile, sumLen]
  | cons c rest ih =>
    unfold popWhile
    by_cases h : sumLen (c :: rest) > co ∨ (sumLen (c :: rest) + dl > cs ∧ 0 < sumLen (c :: rest))
    · rw [if_pos h]; exact ih
    · rw [if_neg h]; omega

theorem mergeLoop_bound (cs co : Nat) :
    ∀ (splits current : List (List Char)),
      (∀ d ∈ splits, d.length < cs) → sumLen current ≤ cs →
      ∀ c ∈ mergeLoop cs co current splits, c.length ≤ cs := by
  intro splits
  induction splits with
  | nil =>
    intro current _ hcur c hc
    unfold mergeLoop at hc
    cases hj : joinDocs current with
    | none => simp [hj] at hc
    | some doc =>
      simp only [hj, List.mem_singleton] at hc
      subst hc
      exact le_trans (joinDocs_length _ _ hj) hcur
  | cons d rest ih =>
    intro current hsplits hcur c hc
    have hd : d.length < cs := hsplits d (List.mem_cons_self d rest)
    have hrest : ∀ x ∈ rest, x.length < cs := fun x hx => hsplits x (List.mem_cons_of_mem d hx)
    unfold mergeLoop at hc
    by_cases hov : sumLen current + d.length > cs
    · rw [if_pos hov] at hc
      by_cases hemp : current.isEmpty
      · rw [if_pos hemp] at hc
        have hnil : current = [] := List.isEmpty_iff.mp hemp
        refine ih (current ++ [d]) hrest ?_ c hc
        subst hnil
        simp [sumLen]
        omega
      · rw [if_neg hemp] at hc
        rcases List.mem_append.mp hc with hm | hm
        · cases hj : joinDocs current with
          | none => simp [hj] at hm
          | some doc =>
            simp only [hj, List.mem_singleton] at hm
            subst hm
            exact le_trans (joinDocs_length _ _ hj) hcur
        · have hpw := popWhile_spec cs co d.length current
          refine ih (popWhile cs co d.length current ++ [d]) hrest ?_ c hm
          have h1 : sumLen (popWhile cs co d.length current ++ [d])
              = sumLen (popWhile cs co d.length current) + d.length := by
            simp [sumLen]
          omega
    · rw [if_neg hov] at hc
      refine ih (current ++ [d]) hrest ?_ c hc
      have h1 : sumLen (current ++ [d]) = sumLen current + d.length := by
        simp [sumLen]
      omega

theorem chooseSep_nil_of (seps : List (List Char)) (t : List Char)
    (hP : seps.getLast? = some []) (h2 : (chooseSep seps t).2 = []) :
    (chooseSep seps t).1 = [] := by
  induction seps with
  | nil => simp [chooseSep]
  | cons s rest ih =>
    cases rest with
    | nil =>
      have hs : s = [] := by simpa using hP
      subst hs
      simp [chooseSep]
    | cons r rs =>
      have hP2 : (r :: rs).getLast? = some [] := by
        rw [← List.getLast?_cons_cons (a := s)]
        exact hP
      by_cases hse : s.isEmpty
      · simp [chooseSep, hse]
      · by_cases hct : containsSeq s t
        · simp [chooseSep, hse, hct] at h2
        · simp only [chooseSep, hse, hct] at h2 ⊢
          simp only [Bool.false_eq_true, if_false] at h2 ⊢
          exact ih hP2 h2

theorem chooseSep_last_of (seps : List (List Char)) (t : List Char)
    (hP : seps.getLast? = some []) (h2 : (chooseSep seps t).2 ≠ []) :
    (chooseSep seps t).2.getLast? = some [] := by
  induction seps with
  | nil => simp [chooseSep] at h2
  | cons s rest ih =>
    cases rest with
    | nil =>
      have hs : s = [] := by simpa using hP
      subst hs
      simp [chooseSep] at h2
    | cons r rs =>
      have hP2 : (r :: rs).getLast? = some [] := by
        rw [← List.getLast?_cons_cons (a := s)]
        exact hP
      by_cases hse : s.isEmpty
      · simp [chooseSep, hse] at h2
      · by_cases hct : containsSeq s t
        · simp only [chooseSep, hse, hct, Bool.false_eq_true, if_false, if_true] at h2 ⊢
          exact hP2
        · simp only [chooseSep, hse, hct, Bool.false_eq_true, if_false] at h2 ⊢
          exact ih hP2 h2

theorem splitWithSep_empty_len (t : List Char) :
    ∀ s ∈ splitWithSep [] t, s.length = 1 := by
  intro s hs
  unfold splitWithSep at hs
  simp only [List.isEmpty_nil, if_pos] at hs
  rcases List.mem_filter.mp hs with ⟨hmem, _⟩
  rcases List.mem_map.mp hmem with ⟨c, _, rfl⟩
  rfl

theorem splitRun_bound (cs co : Nat) (hcs : 1 ≤ cs) :
    ∀ (fuel : Nat) (call : SplitCall), CallOK cs call →
      ∀ c ∈ splitRun cs co fuel call, c.length ≤ cs := by
  intro fuel
  induction fuel with
  | zero => intro call _ c hc; simp [splitRun] at hc
  | succ fuel ih =>
    intro call hok c hc
    cases call with
    | text seps t =>
      simp only [splitRun] at hc
      refine ih _ ?_ c hc
      refine ⟨by simp, ?_, ?_⟩
      · intro hns s hs
        rw [chooseSep_nil_of seps t hok hns] at hs
        have := splitWithSep_empty_len t s hs
        omega
      · intro hns
        exact chooseSep_last_of seps t hok hns
    | proc ns good splits =>
      cases splits with
      | nil =>
        simp only [splitRun] at hc
        by_cases hg : good.isEmpty
        · simp [hg] at hc
        · rw [if_neg hg] at hc
          exact mergeLoop_bound cs co good [] hok.1 (by simp [sumLen]) c hc
      | cons s rest =>
        simp only [splitRun] at hc
        by_cases hlt : s.length < cs
        · rw [if_pos hlt] at hc
          refine ih _ ?_ c hc
          refine ⟨?_, ?_, hok.2.2⟩
          · intro g hg
            rcases List.mem_append.mp hg with h | h
            · exact hok.1 g h
            · simp only [List.mem_singleton] at h
              subst h
              exact hlt
          · intro hns x hx
            exact hok.2.1 hns x (List.mem_cons_of_mem s hx)
        · rw [if_neg hlt] at hc
          rcases List.mem_append.mp hc with h1 | h1
          · rcases List.mem_append.mp h1 with h2 | h2
            · by_cases hg : good.isEmpty
              · simp [hg] at h2
              · rw [if_neg hg] at h2
                exact mergeLoop_bound cs co good [] hok.1 (by simp [sumLen]) c h2
            · by_cases hns : ns.isEmpty
              · rw [if_pos hns] at h2
                simp only [List.mem_singleton] at h2
                subst h2
                exact hok.2.1 (List.isEmpty_iff.mp hns) c (List.mem_cons_self c rest)
              · rw [if_neg hns] at h2
                refine ih (.text ns s) ?_ c h2
                exact hok.2.2 (by simpa using hns)
          · refine ih (.proc ns [] rest) ?_ c h1
            refine ⟨by simp, ?_, hok.2.2⟩
            intro hns x hx
            exact hok.2.1 hns x (List.mem_cons_of_mem s hx)

theorem split_text_bound (cs co : Nat) (hcs : 1 ≤ cs) (t : List Char) :
    ∀ c ∈ split_text cs co t, c.length ≤ cs := by
  intro c hc
  exact splitRun_bound cs co hcs _ _ (by simp [CallOK, ingestSeparators]) c hc

end RecursiveCharacterTextSplitter

namespace DataIngestionPipeline

theorem load_all_documents_index (st : IngestState) :
    (load_all_documents st).2.index = st.index := by
  unfold load_all_documents
  by_cases h : st.dataDirExists
  · simp [h]
  · simp [h]

theorem load_all_documents_dataFiles (st : IngestState) :
    (load_all_documents st).2.dataFiles = st.dataFiles := by
  unfold load_all_documents
  by_cases h : st.dataDirExists
  · simp [h]
  · simp [h]

end DataIngestionPipeline

/-- C1: for every question, if the vector store is absent (not built, or
its load failed, so the engine holds `none`), `get_relevant_documents`
returns the empty list instead of raising; the retrieval `k` it would
pass to the store is `settings.top_k_results = 4`. -/
theorem c1_no_store_returns_empty (eng : MultilingualRAGEngine.Engine)
    (question : List Char) (h : eng.vector_store = none) :
    MultilingualRAGEngine.get_relevant_documents eng question = [] ∧
      settings.top_k_results = 4 := by
  constructor
  · unfold MultilingualRAGEngine.get_relevant_documents
    rw [h]
  · rfl

/-- Witness for C1 at a concrete engine with no vector store and the
query "faith". -/
theorem c1_no_store_returns_empty_witness :
    MultilingualRAGEngine.get_relevant_documents
      { vector_store := none, llm := none } (("faith").data) = [] ∧
      settings.top_k_results = 4 :=
  c1_no_store_returns_empty { vector_store := none, llm := none } (("faith").data) rfl

/-- C8: for every question, if the store's similarity search raises (for
example a dimension mismatch), `get_relevant_documents` catches it and
returns the empty list; the exception does not propagate. -/
theorem c8_search_error_returns_empty (store : MultilingualRAGEngine.RagStore)
    (llm : Option (Except (List Char) (List Char)))
    (question err : List Char)
    (h : store.similarity_search question settings.top_k_results = .error err) :
    MultilingualRAGEngine.get_relevant_documents
      { vector_store := some store, llm := llm } question = [] := by
  unfold MultilingualRAGEngine.get_relevant_documents
  simp [h]

/-- Witness for C8 at a concrete store whose search always raises. -/
theorem c8_search_error_returns_empty_witness :
    MultilingualRAGEngine.get_relevant_documents
      { vector_store := some ⟨fun _ _ => .error (("dimension mismatch").data)⟩,
        llm := none } (("faith").data) = [] :=
  c8_search_error_returns_empty ⟨fun _ _ => .error (("dimension mismatch").data)⟩
    none (("faith").data) (("dimension mismatch").data) rfl

/-- C3: with a loadable index present and `force_rebuild = false`,
`build_vector_db` returns the existing store and leaves the state (hence
the persisted artifacts) unchanged; calling it twice in a row is a no-op
on the artifacts both times. -/
theorem c3_rebuild_skip_idempotent (cs co : Nat)
    (st : DataIngestionPipeline.IngestState) (s : DataIngestionPipeline.IngestStore)
    (h : DataIngestionPipeline.load_vector_store st = some s) :
    DataIngestionPipeline.build_vector_db cs co st false = (.ok s, st) ∧
      DataIngestionPipeline.build_vector_db cs co
        (DataIngestionPipeline.build_vector_db cs co st false).2 false = (.ok s, st) := by
  have h1 : DataIngestionPipeline.build_vector_db cs co st false = (.ok s, st) := by
    unfold DataIngestionPipeline.build_vector_db
    simp [h]
  exact ⟨h1, by rw [h1]; exact h1⟩

/-- Witness for C3 at a concrete state holding a one-chunk index. -/
theorem c3_rebuild_skip_idempotent_witness :
    DataIngestionPipeline.build_vector_db 500 50
      { index := some { docs := [{ source := ("a.txt").data, page_content := ("hello").data }] },
        dataDirExists := true,
        dataFiles := [{ source := ("a.txt").data, page_content := ("hello").data }] } false
      = (.ok { docs := [{ source := ("a.txt").data, page_content := ("hello").data }] },
         { index := some { docs := [{ source := ("a.txt").data, page_content := ("hello").data }] },
           dataDirExists := true,
           dataFiles := [{ source := ("a.txt").data, page_content := ("hello").data }] }) :=
  (c3_rebuild_skip_idempotent 500 50
    { index := some { docs := [{ source := ("a.txt").data, page_content := ("hello").data }] },
      dataDirExists := true,
      dataFiles := [{ source := ("a.txt").data, page_content := ("hello").data }] }
    { docs := [{ source := ("a.txt").data, page_content := ("hello").data }] } rfl).1

/-- C4: when the rebuild path runs (forced, or no loadable index) and zero
chunks are produced from the discovered documents, `build_vector_db`
raises one of the two "no content" `ValueError`s and the persisted index
artifacts are untouched. -/
theorem c4_degenerate_corpus_aborts (cs co : Nat)
    (st : DataIngestionPipeline.IngestState) (fr : Bool)
    (hpath : fr = true ∨ DataIngestionPipeline.load_vector_store st = none)
    (hchunks : DataIngestionPipeline.split_documents cs co
        (DataIngestionPipeline.load_all_documents st).1 = []) :
    ((DataIngestionPipeline.build_vector_db cs co st fr).1
        = .error DataIngestionPipeline.noDocumentsFoundMsg ∨
     (DataIngestionPipeline.build_vector_db cs co st fr).1
        = .error DataIngestionPipeline.noDocumentsProvidedMsg) ∧
    (DataIngestionPipeline.build_vector_db cs co st fr).2.index = st.index := by
  have hreb : DataIngestionPipeline.build_vector_db cs co st fr
      = DataIngestionPipeline.build_vector_db_rebuild cs co st := by
    unfold DataIngestionPipeline.build_vector_db
    rcases hpath with hf | hl
    · subst hf; simp
    · by_cases hf : fr = false
      · simp [hf, hl]
      · simp [hf]
  rw [hreb]
  simp only [DataIngestionPipeline.build_vector_db_rebuild]
  by_cases hdocs : (DataIngestionPipeline.load_all_documents st).1.isEmpty
  · rw [if_pos hdocs]
    exact ⟨Or.inl rfl, DataIngestionPipeline.load_all_documents_index st⟩
  · rw [if_neg hdocs]
    simp only [DataIngestionPipeline.create_vector_store]
    rw [hchunks]
    rw [if_pos List.isEmpty_nil]
    exact ⟨Or.inr rfl, DataIngestionPipeline.load_all_documents_index st⟩

/-- Witness for C4 at a concrete state with no index and a missing data
folder. -/
theorem c4_degenerate_corpus_aborts_witness :
    ((DataIngestionPipeline.build_vector_db 500 50
        { index := none, dataDirExists := false, dataFiles := [] } false).1
        = .error DataIngestionPipeline.noDocumentsFoundMsg ∨
     (DataIngestionPipeline.build_vector_db 500 50
        { index := none, dataDirExists := false, dataFiles := [] } false).1
        = .error DataIngestionPipeline.noDocumentsProvidedMsg) ∧
    (DataIngestionPipeline.build_vector_db 500 50
        { index := none, dataDirExists := false, dataFiles := [] } false).2.index = none :=
  c4_degenerate_corpus_aborts 500 50
    { index := none, dataDirExists := false, dataFiles := [] } false (Or.inr rfl) rfl

theorem sanitize_fold_id (r : List Char)
    (h : ∀ claim ∈ SafetyFilter.DIVINE_CLAIMS, containsSeq claim (toLowerList r) = false) :
    SafetyFilter.DIVINE_CLAIMS.foldl
      (fun x claim =>
        if containsSeq claim (toLowerList r) then pyReplace x claim SafetyFilter.saiBabaTeaches
        else x) r = r := by
  have h1 := h (("i am god").data) (by simp [SafetyFilter.DIVINE_CLAIMS])
  have h2 := h (("i am divine").data) (by simp [SafetyFilter.DIVINE_CLAIMS])
  have h3 := h (("i am sai baba").data) (by simp [SafetyFilter.DIVINE_CLAIMS])
  have h4 := h (("worship me").data) (by simp [SafetyFilter.DIVINE_CLAIMS])
  have h5 := h (("i am omnipotent").data) (by simp [SafetyFilter.DIVINE_CLAIMS])
  have h6 := h (("i am all-knowing").data) (by simp [SafetyFilter.DIVINE_CLAIMS])
  simp [SafetyFilter.DIVINE_CLAIMS, h1, h2, h3, h4, h5, h6]

set_option maxRecDepth 4000 in
/-- C5: `is_prohibited_topic` classifies by substring containment of the
keyword sets over the lowercased question, medical before legal before
predictive, returning the first matching category's fixed warning and
`None` otherwise; "Can you cure my diabetes?" yields the medical warning
and "What is the purpose of life?" yields `None`. -/
theorem c5_prohibited_topic_classifier :
    SafetyFilter.is_prohibited_topic (("Can you cure my diabetes?").data)
        = some SafetyFilter.MEDICAL_WARNING
    ∧ SafetyFilter.is_prohibited_topic (("What is the purpose of life?").data) = none
    ∧ (∀ q : List Char,
        (∃ kw ∈ SafetyFilter.MEDICAL_KEYWORDS, containsSeq kw (toLowerList q) = true) →
        SafetyFilter.is_prohibited_topic q = some SafetyFilter.MEDICAL_WARNING)
    ∧ (∀ q : List Char,
        (∀ kw ∈ SafetyFilter.MEDICAL_KEYWORDS, containsSeq kw (toLowerList q) = false) →
        (∃ kw ∈ SafetyFilter.LEGAL_KEYWORDS, containsSeq kw (toLowerList q) = true) →
        SafetyFilter.is_prohibited_topic q = some SafetyFilter.LEGAL_WARNING)
    ∧ (∀ q : List Char,
        (∀ kw ∈ SafetyFilter.MEDICAL_KEYWORDS, containsSeq kw (toLowerList q) = false) →
        (∀ kw ∈ SafetyFilter.LEGAL_KEYWORDS, containsSeq kw (toLowerList q) = false) →
        (∃ kw ∈ SafetyFilter.PREDICTIVE_KEYWORDS, containsSeq kw (toLowerList q) = true) →
        SafetyFilter.is_prohibited_topic q = some SafetyFilter.PREDICTIVE_WARNING)
    ∧ (∀ q : List Char,
        (∀ kw ∈ SafetyFilter.MEDICAL_KEYWORDS ++ SafetyFilter.LEGAL_KEYWORDS
            ++ SafetyFilter.PREDICTIVE_KEYWORDS, containsSeq kw (toLowerList q) = false) →
        SafetyFilter.is_prohibited_topic q = none) := by
  refine ⟨by decide, by decide, ?_, ?_, ?_, ?_⟩
  · rintro q ⟨kw, hmem, hc⟩
    have ha : SafetyFilter.MEDICAL_KEYWORDS.any (fun kw => containsSeq kw (toLowerList q)) = true :=
      List.any_eq_true.mpr ⟨kw, hmem, hc⟩
    simp [SafetyFilter.is_prohibited_topic, ha]
  · rintro q hmed ⟨kw, hmem, hc⟩
    have hm : SafetyFilter.MEDICAL_KEYWORDS.any (fun kw => containsSeq kw (toLowerList q)) = false := by
      rw [← Bool.not_eq_true, List.any_eq_true]
      rintro ⟨x, hx, hcx⟩
      rw [hmed x hx] at hcx
      exact Bool.false_ne_true hcx
    have hl : SafetyFilter.LEGAL_KEYWORDS.any (fun kw => containsSeq kw (toLowerList q)) = true :=
      List.any_eq_true.mpr ⟨kw, hmem, hc⟩
    simp [SafetyFilter.is_prohibited_topic, hm, hl]
  · rintro q hmed hleg ⟨kw, hmem, hc⟩
    have hm : SafetyFilter.MEDICAL_KEYWORDS.any (fun kw => containsSeq kw (toLowerList q)) = false := by
      rw [← Bool.not_eq_true, List.any_eq_true]
      rintro ⟨x, hx, hcx⟩
      rw [hmed x hx] at hcx
      exact Bool.false_ne_true hcx
    have hl : SafetyFilter.LEGAL_KEYWORDS.any (fun kw => containsSeq kw (toLowerList q)) = false := by
      rw [← Bool.not_eq_true, List.any_eq_true]
      rintro ⟨x, hx, hcx⟩
      rw [hleg x hx] at hcx
      exact Bool.false_ne_true hcx
    have hp : SafetyFilter.PREDICTIVE_KEYWORDS.any (fun kw => containsSeq kw (toLowerList q)) = true :=
      List.any_eq_true.mpr ⟨kw, hmem, hc⟩
    simp [SafetyFilter.is_prohibited_topic, hm, hl, hp]
  · intro q hall
    have hm : SafetyFilter.MEDICAL_KEYWORDS.any (fun kw => containsSeq kw (toLowerList q)) = false := by
      rw [← Bool.not_eq_true, List.any_eq_true]
      rintro ⟨x, hx, hcx⟩
      rw [hall x (by simp [hx])] at hcx
      exact Bool.false_ne_true hcx
    have hl : SafetyFilter.LEGAL_KEYWORDS.any (fun kw => containsSeq kw (toLowerList q)) = false := by
      rw [← Bool.not_eq_true, List.any_eq_true]
      rintro ⟨x, hx, hcx⟩
      rw [hall x (by simp [hx])] at hcx
      exact Bool.false_ne_true hcx
    have hp : SafetyFilter.PREDICTIVE_KEYWORDS.any (fun kw => containsSeq kw (toLowerList q)) = false := by
      rw [← Bool.not_eq_true, List.any_eq_true]
      rintro ⟨x, hx, hcx⟩
      rw [hall x (by simp [hx])] at hcx
      exact Bool.false_ne_true hcx
    simp [SafetyFilter.is_prohibited_topic, hm, hl, hp]

/-- Witness for C5 instantiating the legal-category clause on a concrete
question that matches no medical keyword. -/
theorem c5_prohibited_topic_classifier_witness :
    SafetyFilter.is_prohibited_topic (("I need legal advice about my contract").data)
      = some SafetyFilter.LEGAL_WARNING :=
  c5_prohibited_topic_classifier.2.2.2.1 (("I need legal advice about my contract").data)
    (by decide) ⟨("legal advice").data, by decide, by decide⟩

set_option maxRecDepth 8000 in
/-- C6 counterexample: `sanitize_response` does not replace divine-claim
phrases occurring in non-lowercase form: for "I am God" the phrase is
detected in the lowercased copy, yet the returned response still contains
it verbatim (only the short-response disclaimer is appended).  Moreover
the disclaimer is also appended to a 51-character response because its
lowercased form contains "i don't know", so appending is not tied to
being shorter than 50 characters. -/
theorem c6_counterexample :
    (SafetyFilter.sanitize_response (("I am God").data)
        = ("I am God").data ++ SafetyFilter.DISCLAIMER
      ∧ containsSeq (("i am god").data) (toLowerList (("I am God").data)) = true
      ∧ containsSeq (("I am God").data)
          (SafetyFilter.sanitize_response (("I am God").data)) = true)
    ∧ (SafetyFilter.sanitize_response
          (("i don").data ++ [apos] ++ ("t know the answer to this question, my child.").data)
        = (("i don").data ++ [apos] ++ ("t know the answer to this question, my child.").data)
          ++ SafetyFilter.DISCLAIMER
      ∧ (("i don").data ++ [apos] ++ ("t know the answer to this question, my child.").data).length
          = 51) := by
  refine ⟨⟨?_, ?_, ?_⟩, ?_, ?_⟩ <;> decide

set_option maxRecDepth 8000 in
/-- C6 (amended): `sanitize_response` replaces occurrences of the
divine-claim phrases that appear in their exact lowercase form; detection
uses the lowercased response but replacement is case-sensitive, so
occurrences in any other letter case are left unreplaced.  The fixed
disclaimer is appended when the post-replacement response is shorter than
50 characters or the lowercased original contains "i don't know". -/
theorem c6_sanitize_response :
    (∀ r : List Char, r.length < 50 →
        (∀ claim ∈ SafetyFilter.DIVINE_CLAIMS, containsSeq claim (toLowerList r) = false) →
        SafetyFilter.sanitize_response r = r ++ SafetyFilter.DISCLAIMER)
    ∧ (∀ r : List Char, 50 ≤ r.length →
        (∀ claim ∈ SafetyFilter.DIVINE_CLAIMS, containsSeq claim (toLowerList r) = false) →
        containsSeq SafetyFilter.iDontKnow (toLowerList r) = false →
        SafetyFilter.sanitize_response r = r)
    ∧ SafetyFilter.sanitize_response
        (("they teach that i am god is a false statement to make about oneself.").data)
      = ("they teach that Sai Baba teaches is a false statement to make about oneself.").data
    ∧ SafetyFilter.sanitize_response (("I am God").data)
      = ("I am God").data ++ SafetyFilter.DISCLAIMER := by
  refine ⟨?_, ?_, by decide, by decide⟩
  · intro r hlen h
    have hfold := sanitize_fold_id r h
    have hdec : decide (r.length < 50) = true := decide_eq_true hlen
    simp only [SafetyFilter.sanitize_response, hfold, hdec, Bool.true_or, if_pos]
  · intro r hlen h hidk
    have hfold := sanitize_fold_id r h
    have hdec : decide (r.length < 50) = false := decide_eq_false (Nat.not_lt.mpr hlen)
    simp only [SafetyFilter.sanitize_response, hfold, hdec, hidk, Bool.or_self,
      Bool.false_eq_true, if_false]

/-- Witness for C6 instantiating the short-clean-response clause on a
concrete input. -/
theorem c6_sanitize_response_witness :
    SafetyFilter.sanitize_response (("Be kind.").data)
      = ("Be kind.").data ++ SafetyFilter.DISCLAIMER :=
  c6_sanitize_response.1 (("Be kind.").data) (by decide) (by decide)

theorem langdetect_lookup_mem (code v : List Char)
    (h : LANGDETECT_TO_ISO.lookup code = some v) :
    code ∈ settings.supported_languages := by
  simp only [LANGDETECT_TO_ISO, List.lookup] at h
  by_cases h1 : code == ("en").data
  · rw [eq_of_beq h1]; decide
  · rw [Bool.not_eq_true] at h1
    simp only [h1] at h
    by_cases h2 : code == ("hi").data
    · rw [eq_of_beq h2]; decide
    · rw [Bool.not_eq_true] at h2
      simp only [h2] at h
      by_cases h3 : code == ("te").data
      · rw [eq_of_beq h3]; decide
      · rw [Bool.not_eq_true] at h3
        simp only [h3] at h
        by_cases h4 : code == ("kn").data
        · rw [eq_of_beq h4]; decide
        · rw [Bool.not_eq_true] at h4
          simp only [h4] at h
          exact absurd h (by simp)

/-- C7: `detect_language` always yields a code and never propagates an
error: whitespace-only input returns the configured default regardless of
the classifier's outcome (the classifier is not consulted), a classifier
exception returns the default, and a detected code outside the supported
set `{en, hi, te, kn}` returns the default. -/
theorem c7_detect_language_fallbacks :
    (∀ (default : List Char) (oracle : Except (List Char) (List Char)) (text : List Char),
        trimList text = [] →
        LanguageDetector.detect_language default oracle text = default)
    ∧ (∀ default text e : List Char,
        LanguageDetector.detect_language default (.error e) text = default)
    ∧ (∀ default text code : List Char,
        code ∉ settings.supported_languages →
        LanguageDetector.detect_language default (.ok code) text = default) := by
  refine ⟨?_, ?_, ?_⟩
  · intro default oracle text h
    simp only [LanguageDetector.detect_language, h]
    rw [if_pos List.isEmpty_nil]
  · intro default text e
    simp only [LanguageDetector.detect_language]
    by_cases h : (trimList text).isEmpty
    · rw [if_pos h]
    · rw [if_neg h]
  · intro default text code h
    simp only [LanguageDetector.detect_language]
    by_cases ht : (trimList text).isEmpty
    · rw [if_pos ht]
    · rw [if_neg ht]
      cases hlk : LANGDETECT_TO_ISO.lookup code with
      | none =>
        simp only [hlk]
        rw [if_neg h]
      | some v =>
        exact absurd (langdetect_lookup_mem code v hlk) h

/-- Witness for C7: whitespace-only input, a raised `LangDetectException`,
and an unsupported detected code ("fr") all yield the default "en". -/
theorem c7_detect_language_fallbacks_witness :
    LanguageDetector.detect_language (("en").data) (.ok (("hi").data)) (("   ").data)
        = ("en").data
    ∧ LanguageDetector.detect_language (("en").data)
        (.error (("No features in text.").data)) (("!!!").data) = ("en").data
    ∧ LanguageDetector.detect_language (("en").data) (.ok (("fr").data))
        (("Bonjour mes amis").data) = ("en").data :=
  ⟨c7_detect_language_fallbacks.1 (("en").data) (.ok (("hi").data)) (("   ").data) (by decide),
   c7_detect_language_fallbacks.2.1 (("en").data) (("!!!").data) (("No features in text.").data),
   c7_detect_language_fallbacks.2.2 (("en").data) (("Bonjour mes amis").data) (("fr").data)
     (by decide)⟩

set_option maxRecDepth 8000 in
/-- C9 counterexample: the Safety Filter does not run before the Language
Detector.  For the prohibited question "Can you cure my diabetes?" with no
caller-supplied language, the short-circuited response still depends on
the language detector's outcome (here `hi` versus `te`), so the detector
is invoked before the safety gate decides. -/
theorem c9_counterexample :
    MultilingualRAGEngine.answer_question id { vector_store := none, llm := none }
        (.ok (("hi").data)) none (("Can you cure my diabetes?").data) none
    ≠ MultilingualRAGEngine.answer_question id { vector_store := none, llm := none }
        (.ok (("te").data)) none (("Can you cure my diabetes?").data) none := by
  decide

/-- C9 (amended): at serve time the Language Detector runs first, then the
Safety Filter, which short-circuits before the Retriever: for every
question matching a prohibited-topic keyword, `answer_question` returns
the category's warning as the answer together with the detected language,
an empty sources list and `is_safe = False`, and the result is
independent of the engine's vector store and of any later exception, so
the similarity search is never invoked. -/
theorem c9_safety_short_circuit (nfc : List Char → List Char)
    (eng : MultilingualRAGEngine.Engine)
    (detOracle : Except (List Char) (List Char)) (exc : Option (List Char))
    (question : List Char) (dl : Option (List Char)) (warning : List Char)
    (h : SafetyFilter.is_prohibited_topic question = some warning) :
    MultilingualRAGEngine.answer_question nfc eng detOracle exc question dl =
      [(("answer").data, .str warning),
       (("language").data, .str (MultilingualRAGEngine.detectedLang detOracle question dl)),
       (("sources").data, .sources []),
       (("is_safe").data, .bool false)] := by
  simp only [MultilingualRAGEngine.answer_question, h]

set_option maxRecDepth 8000 in
/-- Witness for C9 at the concrete prohibited question, detector outcome
`te`, and an engine with no store. -/
theorem c9_safety_short_circuit_witness :
    MultilingualRAGEngine.answer_question id { vector_store := none, llm := none }
        (.ok (("te").data)) none (("Can you cure my diabetes?").data) none =
      [(("answer").data, .str SafetyFilter.MEDICAL_WARNING),
       (("language").data, .str (("te").data)),
       (("sources").data, .sources []),
       (("is_safe").data, .bool false)] := by
  rw [c9_safety_short_circuit id { vector_store := none, llm := none } (.ok (("te").data))
    none (("Can you cure my diabetes?").data) none SafetyFilter.MEDICAL_WARNING (by decide)]
  decide

/-- C10: `answer_question` is total and its returned dictionary always
starts with the keys `answer`, `language`, `sources`, `is_safe` (in every
branch); when an internal error escapes to the top-level handler, the
answer is the fixed apology in the detected language (English when the
detected language is falsy), with an empty sources list and an added
`error` entry. -/
theorem c10_answer_question_total_shape :
    ∀ (nfc : List Char → List Char) (eng : MultilingualRAGEngine.Engine)
      (detOracle : Except (List Char) (List Char)) (exc : Option (List Char))
      (question : List Char) (dl : Option (List Char)),
      ((MultilingualRAGEngine.answer_question nfc eng detOracle exc question dl).map
          Prod.fst).take 4
        = [("answer").data, ("language").data, ("sources").data, ("is_safe").data]
      ∧ (∀ e : List Char, exc = some e →
          SafetyFilter.is_prohibited_topic question = none →
          MultilingualRAGEngine.answer_question nfc eng detOracle exc question dl =
            [(("answer").data, .str (lookupD MultilingualRAGEngine.error_messages
                (MultilingualRAGEngine.exceptLang detOracle question dl)
                MultilingualRAGEngine.apologyEn)),
             (("language").data, .str (MultilingualRAGEngine.exceptLang detOracle question dl)),
             (("sources").data, .sources []),
             (("is_safe").data, .bool true),
             (("error").data, .str e)]) := by
  intro nfc eng detOracle exc question dl
  constructor
  · cases hpro : SafetyFilter.is_prohibited_topic question with
    | some w => simp [MultilingualRAGEngine.answer_question, hpro]
    | none =>
      cases exc with
      | some e => simp [MultilingualRAGEngine.answer_question, hpro]
      | none =>
        cases hdocs : MultilingualRAGEngine.get_relevant_documents eng question with
        | nil =>
          cases hllm : eng.llm with
          | none => simp [MultilingualRAGEngine.answer_question, hpro, hdocs, hllm]
          | some v =>
            cases v <;> simp [MultilingualRAGEngine.answer_question, hpro, hdocs, hllm]
        | cons d ds =>
          cases hllm : eng.llm with
          | none => simp [MultilingualRAGEngine.answer_question, hpro, hdocs, hllm]
          | some v =>
            cases v <;> simp [MultilingualRAGEngine.answer_question, hpro, hdocs, hllm]
  · intro e he hpro
    subst he
    simp only [MultilingualRAGEngine.answer_question, hpro,
      MultilingualRAGEngine.exceptLang]

set_option maxRecDepth 8000 in
/-- Witness for C10 at a concrete engine, question, and injected
exception "boom". -/
theorem c10_answer_question_total_shape_witness :
    ((MultilingualRAGEngine.answer_question id { vector_store := none, llm := none }
        (.ok (("en").data)) (some (("boom").data)) (("What is devotion?").data) none).map
        Prod.fst).take 4
      = [("answer").data, ("language").data, ("sources").data, ("is_safe").data]
    ∧ MultilingualRAGEngine.answer_question id { vector_store := none, llm := none }
        (.ok (("en").data)) (some (("boom").data)) (("What is devotion?").data) none =
      [(("answer").data, .str MultilingualRAGEngine.apologyEn),
       (("language").data, .str (("en").data)),
       (("sources").data, .sources []),
       (("is_safe").data, .bool true),
       (("error").data, .str (("boom").data))] := by
  have h := c10_answer_question_total_shape id { vector_store := none, llm := none }
    (.ok (("en").data)) (some (("boom").data)) (("What is devotion?").data) none
  refine ⟨h.1, ?_⟩
  rw [h.2 (("boom").data) rfl (by decide)]
  decide

set_option maxRecDepth 16000 in
/-- C2 counterexample: the configured splitter is LangChain's recursive
splitter, not a fixed-stride window.  Splitting the scenario sentence
"Devotion is the path of love." with `chunk_size = 20`, `overlap = 5`
yields `["Devotion is the path", "path of love."]`, not the claimed
`["Devotion is the pat", "the path of love."]`; and a non-final chunk
need not have length exactly `size`: for
"aaaaaaaaaa bbbbbbbbbbbbbbb cc" the two chunks have lengths 10 and 18. -/
theorem c2_counterexample :
    DataIngestionPipeline.split_documents 20 5
        [{ source := ("devotion.txt").data,
           page_content := ("Devotion is the path of love.").data }]
      ≠ [{ source := ("devotion.txt").data, page_content := ("Devotion is the pat").data },
         { source := ("devotion.txt").data, page_content := ("the path of love.").data }]
    ∧ (RecursiveCharacterTextSplitter.split_text 20 5
        (("aaaaaaaaaa bbbbbbbbbbbbbbb cc").data)).map List.length = [10, 18] := by
  constructor
  · decide
  · decide

/-- C2 (amended): every chunk produced by the document splitter has
length at most `size` (for any text and any `size ≥ 1`, `overlap`); a
non-final chunk may be shorter than `size`; splitting the single sentence
"Devotion is the path of love." with `chunk_size = 20`, `overlap = 5`
yields exactly the two chunks `["Devotion is the path", "path of love."]`. -/
theorem c2_chunk_bound_and_scenario :
    (∀ (cs co : Nat) (docs : List Document), 1 ≤ cs →
        ∀ chunk ∈ DataIngestionPipeline.split_documents cs co docs,
          chunk.page_content.length ≤ cs)
    ∧ DataIngestionPipeline.split_documents 20 5
        [{ source := ("devotion.txt").data,
           page_content := ("Devotion is the path of love.").data }]
      = [{ source := ("devotion.txt").data, page_content := ("Devotion is the path").data },
         { source := ("devotion.txt").data, page_content := ("path of love.").data }] := by
  constructor
  · intro cs co docs hcs chunk hchunk
    unfold DataIngestionPipeline.split_documents at hchunk
    by_cases hd : docs.isEmpty
    · rw [if_pos hd] at hchunk
      exact absurd hchunk (List.not_mem_nil chunk)
    · rw [if_neg hd] at hchunk
      rcases List.mem_flatMap.mp hchunk with ⟨d, _, hmem⟩
      rcases List.mem_map.mp hmem with ⟨t, ht, rfl⟩
      exact RecursiveCharacterTextSplitter.split_text_bound cs co hcs d.page_content t ht
  · show _ = _
    decide

set_option maxRecDepth 16000 in
/-- Witness for C2: the first scenario chunk is a member of the splitter's
output and obeys the length bound at `chunk_size = 20`. -/
theorem c2_chunk_bound_and_scenario_witness :
    ({ source := ("devotion.txt").data,
       page_content := ("Devotion is the path").data } : Document).page_content.length ≤ 20 :=
  c2_chunk_bound_and_scenario.1 20 5
    [{ source := ("devotion.txt").data,
       page_content := ("Devotion is the path of love.").data }]
    (by decide)
    { source := ("devotion.txt").data, page_content := ("Devotion is the path").data }
    (by decide)
